import Mathlib

/-!
# Portfolio script: navigation highlighting, reveal animation and throttle

A shallow embedding of `src/script.js`.

* DOM class lists are lists of class names; `classList.add` and
  `classList.remove` follow the token-list semantics of the DOM.
* Each `querySelectorAll` result is a list in document order.
* Layout numbers (`offsetTop`, `clientHeight`, `scrollY`, `innerHeight`,
  `getBoundingClientRect().top`) are integers.
* Time is a natural number of milliseconds; the host timer queue is explicit.
-/

namespace Portfolio

/-! ## DOM class lists -/

/-- The DOM operation `classList.add(c)`: appends the token unless present. -/
def classListAdd (cl : List String) (c : String) : List String :=
  if c ∈ cl then cl else cl ++ [c]

/-- The DOM operation `classList.remove(c)`: drops the token. -/
def classListRemove (cl : List String) (c : String) : List String :=
  cl.filter (fun x => decide (x ≠ c))

/-! ## Data model -/

/-- One element of `document.querySelectorAll('.nav-link')`.
`href` is the result of `getAttribute('href')` (`none` for JavaScript `null`). -/
structure NavLink where
  href : Option String
  classList : List String
  deriving DecidableEq

/-- One element of `document.querySelectorAll('section[id]')`. -/
structure Section where
  id : String
  offsetTop : Int
  clientHeight : Int
  deriving DecidableEq

/-- An element that carries an `id` attribute, as seen by `getElementById`. -/
structure DocElement where
  id : String
  offsetTop : Int
  deriving DecidableEq

/-- The script state: the global `activeSection`, the nav links of the page and
the log of `window.scrollTo` requests (their `top` values, oldest first). -/
structure PageState where
  activeSection : String
  navLinks : List NavLink
  scrollRequests : List Int
  deriving DecidableEq

/-- A link carries the `active` class. -/
def NavLink.isActive (l : NavLink) : Bool :=
  decide ("active" ∈ l.classList)

/-- The DOM lookup `document.getElementById(id)`: the first element in document order
whose ID is `id`; an empty `id` attribute gives an element no ID. -/
def getElementById (doc : List DocElement) (id : String) : Option DocElement :=
  doc.find? (fun e => decide (e.id = id ∧ e.id ≠ ""))

/-! ## Navigation highlighting -/

/-- The body of the `forEach` callback of `updateActiveLink` (lines 31-39). -/
def updateLink (activeId : String) (link : NavLink) : NavLink :=
  let cleared := classListRemove link.classList "active"
  if link.href = some ("#" ++ activeId) then
    { link with classList := classListAdd cleared "active" }
  else
    { link with classList := cleared }

/-- The function `updateActiveLink(activeId)` (lines 28-40). -/
def updateActiveLink (activeId : String) (st : PageState) : PageState :=
  { st with navLinks := st.navLinks.map (updateLink activeId) }

/-- The range test of line 53 for one section. -/
def inRange (scrollPosition : Int) (s : Section) : Bool :=
  decide (scrollPosition ≥ s.offsetTop ∧ scrollPosition < s.offsetTop + s.clientHeight)

/-- The loop of lines 47-56: `current` starts as the empty string and is overwritten
by each section whose range holds `scrollPosition`. -/
def resolveCurrent (sections : List Section) (scrollPosition : Int) : String :=
  sections.foldl (fun current s => if inRange scrollPosition s then s.id else current) ""

/-- The function `handleScrollNavigation()` (lines 43-63) under the layout `sections`
and the scroll offset `scrollY`. -/
def handleScrollNavigation (sections : List Section) (scrollY : Int)
    (st : PageState) : PageState :=
  let scrollPosition := scrollY + 100
  let current := resolveCurrent sections scrollPosition
  if current ≠ "" ∧ current ≠ st.activeSection then
    updateActiveLink current { st with activeSection := current }
  else
    st

/-- The function `scrollToSection(sectionId)` (lines 8-25) on the document `doc`. -/
def scrollToSection (doc : List DocElement) (sectionId : String)
    (st : PageState) : PageState :=
  match getElementById doc sectionId with
  | some element =>
    let navHeight : Int := 80
    let elementPosition := element.offsetTop - navHeight
    updateActiveLink sectionId
      { st with scrollRequests := st.scrollRequests ++ [elementPosition],
                activeSection := sectionId }
  | none => st

/-- A call of one of the three functions exported on `window.portfolioFunctions`,
with the part of the page it reads. -/
inductive NavCall where
  | scrollNav (sections : List Section) (scrollY : Int)
  | scrollTo (doc : List DocElement) (sectionId : String)
  | updateLinks (activeId : String)

/-- Runs one call. -/
def NavCall.run : NavCall → PageState → PageState
  | .scrollNav sections scrollY, st => handleScrollNavigation sections scrollY st
  | .scrollTo doc sectionId, st => scrollToSection doc sectionId st
  | .updateLinks activeId, st => updateActiveLink activeId st

/-- Runs a sequence of calls, first call first. -/
def runCalls (calls : List NavCall) (st : PageState) : PageState :=
  calls.foldl (fun s c => c.run s) st

/-- The number of nav links that carry `active`. -/
def activeCount (st : PageState) : Nat :=
  st.navLinks.countP NavLink.isActive

/-- The highlight follows the state: a link carries `active` exactly when its
`href` is `#` followed by the stored `activeSection`. -/
def InSync (st : PageState) : Prop :=
  ∀ l ∈ st.navLinks, (l.isActive = true ↔ l.href = some ("#" ++ st.activeSection))

/-- The sections whose range holds `scrollY + 100`, in document order. -/
def matching (sections : List Section) (scrollY : Int) : List Section :=
  sections.filter (inRange (scrollY + 100))

/-! ## Reveal animation -/

/-- An element of the page that may be revealed. `node` is the identity of the DOM
node; `sectionChildDiv` says whether the selector `section > div` selects it. -/
structure FadeElement where
  node : Nat
  classList : List String
  sectionChildDiv : Bool
  deriving DecidableEq

/-- The layout read by `animateOnScroll`: `window.innerHeight` and, per node,
`getBoundingClientRect().top`. -/
structure Geometry where
  innerHeight : Int
  top : Nat → Int

/-- An element carries the `visible` class. -/
def FadeElement.isVisible (e : FadeElement) : Bool :=
  decide ("visible" ∈ e.classList)

/-- The selector `.fade-in` selects the element. -/
def FadeElement.isFadeIn (e : FadeElement) : Bool :=
  decide ("fade-in" ∈ e.classList)

/-- The body of the `forEach` callback of `animateOnScroll` (lines 69-76), applied to
the elements that `.fade-in` selects and to no other. -/
def animateElement (g : Geometry) (e : FadeElement) : FadeElement :=
  if e.isFadeIn = true then
    let elementTop := g.top e.node
    let elementVisible : Int := 150
    if elementTop < g.innerHeight - elementVisible then
      { e with classList := classListAdd e.classList "visible" }
    else e
  else e

/-- The function `animateOnScroll()` (lines 66-77). -/
def animateOnScroll (g : Geometry) (elements : List FadeElement) : List FadeElement :=
  elements.map (animateElement g)

/-- Successive calls of `animateOnScroll`, one per geometry, first geometry first. -/
def animateAll (gs : List Geometry) (elements : List FadeElement) : List FadeElement :=
  gs.foldl (fun els g => animateOnScroll g els) elements

/-! ## Throttle -/

/-- A pending timer of the host: its handle, the time at which it fires and the
arguments captured by the `later` closure it runs. -/
structure Timer (α : Type) where
  id : Nat
  due : Nat
  args : α
  deriving DecidableEq

/-- The state around one function returned by `throttle(func, wait)`: the closure
variable `timeout`, the next free timer handle, the pending timers of the host,
and the log of the invocations of `func` (time and arguments, oldest first). -/
structure ThrottleState (α : Type) where
  timeout : Option Nat
  nextId : Nat
  pending : List (Timer α)
  invoked : List (Nat × α)
  deriving DecidableEq

/-- The state right after `throttle(func, wait)` returns: `timeout` is undefined,
nothing is pending, `func` has not run. -/
def throttle (α : Type) (firstId : Nat) : ThrottleState α :=
  { timeout := none, nextId := firstId, pending := [], invoked := [] }

/-- The host call `clearTimeout(id)`: the timer with that handle is no longer pending. -/
def clearTimeout {α : Type} (id : Option Nat) (pending : List (Timer α)) : List (Timer α) :=
  pending.filter (fun t => decide (some t.id ≠ id))

/-- The closure `later` of lines 126-129, run when its timer `t` fires. -/
def later {α : Type} (t : Timer α) (s : ThrottleState α) : ThrottleState α :=
  { s with pending := clearTimeout s.timeout s.pending,
           invoked := s.invoked ++ [(t.due, t.args)] }

/-- The pending timer that fires next up to time `limit`: the least `due` not
after `limit`, the earlier registered one on a tie. -/
def nextDue {α : Type} (limit : Nat) : List (Timer α) → Option (Timer α)
  | [] => none
  | t :: ts =>
    match nextDue limit ts with
    | none => if t.due ≤ limit then some t else none
    | some u => if t.due ≤ u.due then some t else some u

/-- Fires due timers one after the other; each firing removes a timer, so
`pending.length` rounds are enough. -/
def runTimersAux {α : Type} (limit : Nat) : Nat → ThrottleState α → ThrottleState α
  | 0, s => s
  | n + 1, s =>
    match nextDue limit s.pending with
    | none => s
    | some t =>
      runTimersAux limit n
        (later t { s with pending := s.pending.filter (fun u => decide (u.id ≠ t.id)) })

/-- Lets time pass up to `limit`: every timer due by then fires, in order. -/
def runTimers {α : Type} (limit : Nat) (s : ThrottleState α) : ThrottleState α :=
  runTimersAux limit s.pending.length s

/-- A call of `executedFunction(...args)` (lines 125-132) at time `now`. -/
def executedFunction {α : Type} (wait : Nat) (now : Nat) (args : α)
    (s : ThrottleState α) : ThrottleState α :=
  let s1 := runTimers now s
  { s1 with pending := clearTimeout s1.timeout s1.pending ++ [⟨s1.nextId, now + wait, args⟩],
            nextId := s1.nextId + 1,
            timeout := some s1.nextId }

/-- A sequence of calls `(time, args)`, first call first. -/
def callAll {α : Type} (wait : Nat) (calls : List (Nat × α))
    (s : ThrottleState α) : ThrottleState α :=
  calls.foldl (fun st c => executedFunction wait c.1 c.2 st) s

/-- Each call comes no earlier than the previous one and less than `wait` after it. -/
def closeCalls {α : Type} (wait : Nat) : List (Nat × α) → Bool
  | [] => true
  | [_] => true
  | a :: b :: rest => decide (a.1 ≤ b.1 ∧ b.1 < a.1 + wait) && closeCalls wait (b :: rest)

/-! ## Page load -/

/-- The page as the `DOMContentLoaded` handler sees it: the navigation state, the
elements that may be revealed, and the pending `scrollToSection` timers set by
`onPageLoad` (delay and section id). -/
structure Page where
  nav : PageState
  elements : List FadeElement
  scheduled : List (Nat × String)
  deriving DecidableEq

/-- Lines 162-166: every `section > div` element gets the class `fade-in`. -/
def addFadeIn (e : FadeElement) : FadeElement :=
  if e.sectionChildDiv = true then
    { e with classList := classListAdd e.classList "fade-in" }
  else e

/-- The function `initializePortfolio()` (lines 136-170). Icon creation and the
registration of listeners touch neither the navigation state nor any class. -/
def initializePortfolio (sections : List Section) (scrollY : Int) (g : Geometry)
    (p : Page) : Page :=
  let nav := handleScrollNavigation sections scrollY p.nav
  let animatedElements := p.elements.map addFadeIn
  { p with nav := nav, elements := animateOnScroll g animatedElements }

/-- The function `onPageLoad()` (lines 173-184); `hash` is `window.location.hash`. -/
def onPageLoad (hash : String) (p : Page) : Page :=
  if hash ≠ "" then
    let sectionId := hash.drop 1
    { p with scheduled := p.scheduled ++ [(100, sectionId)] }
  else p

/-- The `DOMContentLoaded` handler (lines 187-190). -/
def domContentLoaded (sections : List Section) (scrollY : Int) (g : Geometry)
    (hash : String) (p : Page) : Page :=
  onPageLoad hash (initializePortfolio sections scrollY g p)

/-- The page when the script has been evaluated: `activeSection` is `home` (line 5),
no scroll was requested and no timer is pending. -/
def initialPage (navLinks : List NavLink) (elements : List FadeElement) : Page :=
  { nav := { activeSection := "home", navLinks := navLinks, scrollRequests := [] },
    elements := elements, scheduled := [] }

/-! ## Class list lemmas -/

theorem mem_classListAdd (cl : List String) (c x : String) :
    x ∈ classListAdd cl c ↔ x ∈ cl ∨ x = c := by
  unfold classListAdd
  split
  · constructor
    · intro h; exact Or.inl h
    · rintro (h | h)
      · exact h
      · subst h; assumption
  · simp

theorem mem_classListRemove (cl : List String) (c x : String) :
    x ∈ classListRemove cl c ↔ x ∈ cl ∧ x ≠ c := by
  simp [classListRemove]

theorem classListAdd_of_mem (cl : List String) (c : String) (h : c ∈ cl) :
    classListAdd cl c = cl := by
  simp [classListAdd, h]

/-! ## Lemmas on `updateActiveLink` -/

theorem updateLink_href (activeId : String) (l : NavLink) :
    (updateLink activeId l).href = l.href := by
  unfold updateLink
  split <;> rfl

theorem updateLink_isActive (activeId : String) (l : NavLink) :
    (updateLink activeId l).isActive = true ↔ l.href = some ("#" ++ activeId) := by
  unfold updateLink NavLink.isActive
  split
  · rename_i h
    simp [mem_classListAdd, h]
  · rename_i h
    simp [mem_classListRemove, h]

theorem updateActiveLink_hrefs (activeId : String) (st : PageState) :
    (updateActiveLink activeId st).navLinks.map NavLink.href
      = st.navLinks.map NavLink.href := by
  simp [updateActiveLink, List.map_map, Function.comp_def, updateLink_href]

theorem updateActiveLink_isActive (activeId : String) (st : PageState) :
    ∀ l ∈ (updateActiveLink activeId st).navLinks,
      (l.isActive = true ↔ l.href = some ("#" ++ activeId)) := by
  intro l hl
  simp only [updateActiveLink, List.mem_map] at hl
  obtain ⟨l0, _, rfl⟩ := hl
  rw [updateLink_isActive, updateLink_href]

theorem updateActiveLink_inSync (activeId : String) (st : PageState) :
    InSync (updateActiveLink activeId { st with activeSection := activeId }) := by
  intro l hl
  exact updateActiveLink_isActive activeId _ l hl

/-! ## Lemmas on the section scan -/

theorem foldl_current (p : Int) (sections : List Section) (init : String) :
    sections.foldl (fun current s => if inRange p s then s.id else current) init
      = match (sections.filter (inRange p)).getLast? with
        | none => init
        | some s => s.id := by
  induction sections generalizing init with
  | nil => rfl
  | cons a rest ih =>
    rw [List.foldl_cons, ih]
    by_cases ha : inRange p a = true
    · rw [List.filter_cons_of_pos ha]
      cases hr : List.filter (inRange p) rest with
      | nil => simp [ha]
      | cons b bs =>
        rw [List.getLast?_cons_cons]
        rw [List.getLast?_eq_getLast (b :: bs) (by simp)]
    · rw [List.filter_cons_of_neg ha]
      rw [if_neg ha]

theorem resolveCurrent_eq (sections : List Section) (p : Int) :
    resolveCurrent sections p
      = match (sections.filter (inRange p)).getLast? with
        | none => ""
        | some s => s.id :=
  foldl_current p sections ""

theorem handleScrollNavigation_inSync (sections : List Section) (scrollY : Int)
    (st : PageState) (h : InSync st) :
    InSync (handleScrollNavigation sections scrollY st) := by
  unfold handleScrollNavigation
  simp only
  split
  · exact updateActiveLink_inSync _ st
  · exact h

theorem scrollToSection_inSync (doc : List DocElement) (sectionId : String)
    (st : PageState) (h : InSync st) :
    InSync (scrollToSection doc sectionId st) := by
  unfold scrollToSection
  split
  · exact updateActiveLink_inSync sectionId
      { st with scrollRequests := st.scrollRequests ++ [_] }
  · exact h

theorem getElementById_none_of_no_id (doc : List DocElement) (sectionId : String)
    (h : ∀ e ∈ doc, e.id ≠ sectionId) : getElementById doc sectionId = none := by
  unfold getElementById
  rw [List.find?_eq_none]
  intro e he
  simp [h e he]

/-! ## Reachable highlight states -/

/-- Every highlighted link points at one and the same id. -/
def SingleTarget (st : PageState) : Prop :=
  ∃ id : String, ∀ l ∈ st.navLinks, l.isActive = true → l.href = some ("#" ++ id)

theorem updateActiveLink_singleTarget (activeId : String) (st : PageState) :
    SingleTarget (updateActiveLink activeId st) :=
  ⟨activeId, fun l hl ha => (updateActiveLink_isActive activeId st l hl).1 ha⟩

theorem run_singleTarget (c : NavCall) (st : PageState) (h : SingleTarget st) :
    SingleTarget (c.run st) := by
  cases c with
  | scrollNav sections scrollY =>
    simp only [NavCall.run, handleScrollNavigation]
    split
    · exact updateActiveLink_singleTarget _ _
    · exact h
  | scrollTo doc sectionId =>
    simp only [NavCall.run, scrollToSection]
    split
    · exact updateActiveLink_singleTarget _ _
    · exact h
  | updateLinks activeId => exact updateActiveLink_singleTarget _ _

theorem run_hrefs (c : NavCall) (st : PageState) :
    (c.run st).navLinks.map NavLink.href = st.navLinks.map NavLink.href := by
  cases c with
  | scrollNav sections scrollY =>
    simp only [NavCall.run, handleScrollNavigation]
    split
    · rw [updateActiveLink_hrefs]
    · rfl
  | scrollTo doc sectionId =>
    simp only [NavCall.run, scrollToSection]
    split
    · rw [updateActiveLink_hrefs]
    · rfl
  | updateLinks activeId => exact updateActiveLink_hrefs _ _

theorem runCalls_singleTarget (calls : List NavCall) (st : PageState)
    (h : SingleTarget st) : SingleTarget (runCalls calls st) := by
  induction calls generalizing st with
  | nil => exact h
  | cons c rest ih => exact ih (c.run st) (run_singleTarget c st h)

theorem runCalls_hrefs (calls : List NavCall) (st : PageState) :
    (runCalls calls st).navLinks.map NavLink.href = st.navLinks.map NavLink.href := by
  induction calls generalizing st with
  | nil => rfl
  | cons c rest ih =>
    show (runCalls rest (c.run st)).navLinks.map NavLink.href = _
    rw [ih, run_hrefs]

theorem countP_le_one_of_target (links : List NavLink) (x : String)
    (hd : (links.filterMap NavLink.href).Nodup)
    (h : ∀ l ∈ links, l.isActive = true → l.href = some x) :
    links.countP NavLink.isActive ≤ 1 := by
  induction links with
  | nil => simp
  | cons a rest ih =>
    have hrest : ∀ l ∈ rest, l.isActive = true → l.href = some x :=
      fun l hl => h l (List.mem_cons_of_mem _ hl)
    by_cases ha : a.isActive = true
    · have hax : a.href = some x := h a (List.mem_cons_self _ _) ha
      rw [List.filterMap_cons_some hax, List.nodup_cons] at hd
      have hnone : ∀ l ∈ rest, ¬ (l.isActive = true) := by
        intro l hl hact
        apply hd.1
        rw [List.mem_filterMap]
        exact ⟨l, hl, hrest l hl hact⟩
      rw [List.countP_cons_of_pos _ _ ha]
      have : rest.countP NavLink.isActive = 0 := by
        rw [List.countP_eq_zero]
        exact hnone
      omega
    · rw [List.countP_cons_of_neg _ _ ha]
      apply ih _ hrest
      cases hh : a.href with
      | none => rw [List.filterMap_cons_none hh] at hd; exact hd
      | some y => rw [List.filterMap_cons_some hh, List.nodup_cons] at hd; exact hd.2

/-! ## Claims on navigation highlighting -/

/-- C1, as stated, fails: the only section has an empty `id` and holds the biased
offset, yet the stored `activeSection` stays `home` instead of becoming that id. -/
theorem handleScrollNavigation_empty_id_counterexample :
    (matching [⟨"", 0, 1000⟩] 0).getLast? = some ⟨"", 0, 1000⟩
    ∧ (handleScrollNavigation [⟨"", 0, 1000⟩] 0 ⟨"home", [], []⟩).activeSection = "home"
    ∧ (handleScrollNavigation [⟨"", 0, 1000⟩] 0 ⟨"home", [], []⟩).activeSection
        ≠ (⟨"", 0, 1000⟩ : Section).id := by
  decide

/-- C1 (amended): when `s` is the last section in document order whose range
holds `scrollY + 100`, the stored `activeSection` after `handleScrollNavigation` is
`s.id` provided that id is not the empty string; with an empty id the state is
left as it was. -/
theorem handleScrollNavigation_last_match (sections : List Section) (scrollY : Int)
    (st : PageState) (s : Section)
    (h : (matching sections scrollY).getLast? = some s) :
    (s.id ≠ "" → (handleScrollNavigation sections scrollY st).activeSection = s.id)
    ∧ (s.id = "" → handleScrollNavigation sections scrollY st = st) := by
  have hc : resolveCurrent sections (scrollY + 100) = s.id := by
    rw [resolveCurrent_eq]
    unfold matching at h
    rw [h]
  unfold handleScrollNavigation
  simp only [hc]
  constructor
  · intro hne
    by_cases heq : s.id = st.activeSection
    · rw [if_neg (by simp [heq])]
      exact heq.symm
    · rw [if_pos ⟨hne, heq⟩]
      rfl
  · intro he
    rw [if_neg (by simp [he])]

/-- C1 (amended), on the layout of the spec (sections A = [0,100) and
B = [100,250), `scrollY = 50`) and on a layout whose only section has an empty id. -/
theorem handleScrollNavigation_last_match_witness :
    ((matching [⟨"A", 0, 100⟩, ⟨"B", 100, 150⟩] 50).getLast? = some ⟨"B", 100, 150⟩
      ∧ (⟨"B", 100, 150⟩ : Section).id ≠ ""
      ∧ (handleScrollNavigation [⟨"A", 0, 100⟩, ⟨"B", 100, 150⟩] 50
          ⟨"home", [], []⟩).activeSection = (⟨"B", 100, 150⟩ : Section).id)
    ∧ ((matching [⟨"", 0, 1000⟩] 0).getLast? = some ⟨"", 0, 1000⟩
      ∧ (⟨"", 0, 1000⟩ : Section).id = ""
      ∧ handleScrollNavigation [⟨"", 0, 1000⟩] 0 ⟨"home", [⟨some "#home", ["active"]⟩], []⟩
          = ⟨"home", [⟨some "#home", ["active"]⟩], []⟩) :=
  ⟨⟨by decide, by decide,
    (handleScrollNavigation_last_match [⟨"A", 0, 100⟩, ⟨"B", 100, 150⟩] 50
      ⟨"home", [], []⟩ ⟨"B", 100, 150⟩ (by decide)).1 (by decide)⟩,
   ⟨by decide, by decide,
    (handleScrollNavigation_last_match [⟨"", 0, 1000⟩] 0
      ⟨"home", [⟨some "#home", ["active"]⟩], []⟩ ⟨"", 0, 1000⟩ (by decide)).2 (by decide)⟩⟩

/-- C2: when no section's range holds `scrollY + 100`, `handleScrollNavigation`
returns the state it was given: the stored `activeSection` and the class list of
every nav link are as before. -/
theorem handleScrollNavigation_no_match (sections : List Section) (scrollY : Int)
    (st : PageState)
    (h : ∀ s ∈ sections,
      ¬ (s.offsetTop ≤ scrollY + 100 ∧ scrollY + 100 < s.offsetTop + s.clientHeight)) :
    handleScrollNavigation sections scrollY st = st := by
  have hf : sections.filter (inRange (scrollY + 100)) = [] := by
    rw [List.filter_eq_nil_iff]
    intro s hs
    have := h s hs
    simpa [inRange] using this
  have hc : resolveCurrent sections (scrollY + 100) = "" := by
    rw [resolveCurrent_eq, hf]
    rfl
  unfold handleScrollNavigation
  simp only [hc]
  rw [if_neg (by simp)]

/-- C2 at a layout whose only section ends above the biased offset. -/
theorem handleScrollNavigation_no_match_witness :
    (∀ s ∈ [(⟨"home", 0, 100⟩ : Section)],
      ¬ (s.offsetTop ≤ (500 : Int) + 100 ∧ (500 : Int) + 100 < s.offsetTop + s.clientHeight))
    ∧ handleScrollNavigation [⟨"home", 0, 100⟩] 500
        ⟨"about", [⟨some "#about", ["nav-link", "active"]⟩], []⟩
      = ⟨"about", [⟨some "#about", ["nav-link", "active"]⟩], []⟩ :=
  ⟨by decide,
   handleScrollNavigation_no_match [⟨"home", 0, 100⟩] 500
     ⟨"about", [⟨some "#about", ["nav-link", "active"]⟩], []⟩ (by decide)⟩

/-- C4, as stated, fails: two nav links share the href `#about`; from a state with
no highlighted link one `updateActiveLink` call highlights both. -/
theorem two_links_active_counterexample :
    activeCount ⟨"home", [⟨some "#about", []⟩, ⟨some "#about", []⟩], []⟩ = 0
    ∧ activeCount (runCalls [NavCall.updateLinks "about"]
        ⟨"home", [⟨some "#about", []⟩, ⟨some "#about", []⟩], []⟩) = 2 := by
  decide

/-- C4 (amended): in every state reached from a state with no highlighted link by
calls of `handleScrollNavigation`, `scrollToSection` and `updateActiveLink`, all
highlighted links have the same href, and when no two nav links share an href
value at most one nav link carries `active`. -/
theorem runCalls_at_most_one_active (calls : List NavCall) (st : PageState)
    (h0 : ∀ l ∈ st.navLinks, l.isActive = false) :
    (∀ l1 ∈ (runCalls calls st).navLinks, ∀ l2 ∈ (runCalls calls st).navLinks,
        l1.isActive = true → l2.isActive = true → l1.href = l2.href)
    ∧ ((st.navLinks.filterMap NavLink.href).Nodup →
        activeCount (runCalls calls st) ≤ 1) := by
  have hst : SingleTarget st := ⟨"", fun l hl ha => by simp [h0 l hl] at ha⟩
  obtain ⟨id, hid⟩ := runCalls_singleTarget calls st hst
  constructor
  · intro l1 h1 l2 h2 a1 a2
    rw [hid l1 h1 a1, hid l2 h2 a2]
  · intro hd
    have hmap := runCalls_hrefs calls st
    have hd2 : ((runCalls calls st).navLinks.filterMap NavLink.href).Nodup := by
      have e : ∀ ls : List NavLink,
          ls.filterMap NavLink.href = (ls.map NavLink.href).filterMap (fun x => x) := by
        intro ls
        rw [List.filterMap_map]
        rfl
      rw [e, hmap, ← e]
      exact hd
    exact countP_le_one_of_target _ ("#" ++ id) hd2 hid

/-- C4 (amended) at a page with three links of distinct hrefs and three calls,
after which the `home` link is the highlighted one. -/
theorem runCalls_at_most_one_active_witness :
    (∀ l ∈ (⟨"home", [⟨some "#home", []⟩, ⟨some "#about", []⟩, ⟨none, []⟩], []⟩ :
        PageState).navLinks, l.isActive = false)
    ∧ ((⟨"home", [⟨some "#home", []⟩, ⟨some "#about", []⟩, ⟨none, []⟩], []⟩ :
        PageState).navLinks.filterMap NavLink.href).Nodup
    ∧ (⟨some "#home", ["active"]⟩ : NavLink) ∈ (runCalls [NavCall.updateLinks "home",
            NavCall.scrollNav [⟨"about", 0, 900⟩] 10,
            NavCall.scrollTo [⟨"home", 0⟩] "home"]
          ⟨"home", [⟨some "#home", []⟩, ⟨some "#about", []⟩, ⟨none, []⟩], []⟩).navLinks
    ∧ (⟨some "#home", ["active"]⟩ : NavLink).isActive = true
    ∧ (⟨some "#home", ["active"]⟩ : NavLink).href
        = (⟨some "#home", ["active"]⟩ : NavLink).href
    ∧ activeCount (runCalls [NavCall.updateLinks "home",
            NavCall.scrollNav [⟨"about", 0, 900⟩] 10,
            NavCall.scrollTo [⟨"home", 0⟩] "home"]
          ⟨"home", [⟨some "#home", []⟩, ⟨some "#about", []⟩, ⟨none, []⟩], []⟩) ≤ 1 :=
  ⟨by decide, by decide, by decide, by decide,
   (runCalls_at_most_one_active [NavCall.updateLinks "home",
       NavCall.scrollNav [⟨"about", 0, 900⟩] 10,
       NavCall.scrollTo [⟨"home", 0⟩] "home"]
     ⟨"home", [⟨some "#home", []⟩, ⟨some "#about", []⟩, ⟨none, []⟩], []⟩ (by decide)).1
     ⟨some "#home", ["active"]⟩ (by decide) ⟨some "#home", ["active"]⟩ (by decide)
     (by decide) (by decide),
   (runCalls_at_most_one_active [NavCall.updateLinks "home",
       NavCall.scrollNav [⟨"about", 0, 900⟩] 10,
       NavCall.scrollTo [⟨"home", 0⟩] "home"]
     ⟨"home", [⟨some "#home", []⟩, ⟨some "#about", []⟩, ⟨none, []⟩], []⟩ (by decide)).2
     (by decide)⟩

/-- C7: when no element of the page has the id `sectionId` the lookup finds nothing,
and whenever the lookup finds nothing `scrollToSection` returns the state it was
given (no scroll request, same `activeSection`, same class lists); when the lookup
finds an element, a scroll to `offsetTop - 80` is requested and `activeSection`
becomes `sectionId`. -/
theorem scrollToSection_missing_or_found (doc : List DocElement) (sectionId : String)
    (st : PageState) :
    ((∀ e ∈ doc, e.id ≠ sectionId) → getElementById doc sectionId = none)
    ∧ (getElementById doc sectionId = none → scrollToSection doc sectionId st = st)
    ∧ (∀ element, getElementById doc sectionId = some element →
        element ∈ doc ∧ element.id = sectionId
        ∧ (scrollToSection doc sectionId st).scrollRequests
            = st.scrollRequests ++ [element.offsetTop - 80]
        ∧ (scrollToSection doc sectionId st).activeSection = sectionId) := by
  refine ⟨getElementById_none_of_no_id doc sectionId, ?_, ?_⟩
  · intro h
    unfold scrollToSection
    rw [h]
  · intro element h
    have hmem : element ∈ doc := List.mem_of_find?_eq_some h
    have hid : element.id = sectionId := by
      have := List.find?_some h
      simp at this
      exact this.1
    refine ⟨hmem, hid, ?_, ?_⟩
    · unfold scrollToSection
      rw [h]
      rfl
    · unfold scrollToSection
      rw [h]
      rfl

/-- C7 at a page with the elements `home` and `about`: the id `projects` is missing,
the id `about` is found. -/
theorem scrollToSection_missing_or_found_witness :
    ((∀ e ∈ [(⟨"home", 0⟩ : DocElement), ⟨"about", 700⟩], e.id ≠ "projects")
      ∧ getElementById [⟨"home", 0⟩, ⟨"about", 700⟩] "projects" = none
      ∧ scrollToSection [⟨"home", 0⟩, ⟨"about", 700⟩] "projects"
          ⟨"home", [⟨some "#home", ["active"]⟩, ⟨some "#about", []⟩], []⟩
        = ⟨"home", [⟨some "#home", ["active"]⟩, ⟨some "#about", []⟩], []⟩)
    ∧ (getElementById [⟨"home", 0⟩, ⟨"about", 700⟩] "about" = some ⟨"about", 700⟩
      ∧ (⟨"about", 700⟩ : DocElement) ∈ [(⟨"home", 0⟩ : DocElement), ⟨"about", 700⟩]
      ∧ (⟨"about", 700⟩ : DocElement).id = "about"
      ∧ (scrollToSection [⟨"home", 0⟩, ⟨"about", 700⟩] "about"
          ⟨"home", [⟨some "#home", ["active"]⟩, ⟨some "#about", []⟩], []⟩).scrollRequests
        = ([] : List Int) ++ [(⟨"about", 700⟩ : DocElement).offsetTop - 80]
      ∧ (scrollToSection [⟨"home", 0⟩, ⟨"about", 700⟩] "about"
          ⟨"home", [⟨some "#home", ["active"]⟩, ⟨some "#about", []⟩], []⟩).activeSection
        = "about") :=
  ⟨⟨by decide,
    (scrollToSection_missing_or_found [⟨"home", 0⟩, ⟨"about", 700⟩] "projects"
      ⟨"home", [⟨some "#home", ["active"]⟩, ⟨some "#about", []⟩], []⟩).1 (by decide),
    (scrollToSection_missing_or_found [⟨"home", 0⟩, ⟨"about", 700⟩] "projects"
      ⟨"home", [⟨some "#home", ["active"]⟩, ⟨some "#about", []⟩], []⟩).2.1 (by decide)⟩,
   ⟨by decide,
    (scrollToSection_missing_or_found [⟨"home", 0⟩, ⟨"about", 700⟩] "about"
      ⟨"home", [⟨some "#home", ["active"]⟩, ⟨some "#about", []⟩], []⟩).2.2
      ⟨"about", 700⟩ (by decide)⟩⟩

/-- C8, as stated, fails: no link has the href `#about`, and after
`updateActiveLink("about")` no link is highlighted, not exactly one. -/
theorem updateActiveLink_none_active_counterexample :
    activeCount (updateActiveLink "about"
        ⟨"home", [⟨some "#home", ["active"]⟩, ⟨some "#projects", []⟩], []⟩) = 0
    ∧ activeCount (updateActiveLink "about"
        ⟨"home", [⟨some "#home", ["active"]⟩, ⟨some "#projects", []⟩], []⟩) ≠ 1 := by
  decide

/-- C8 (amended): after `updateActiveLink(activeId)` the hrefs are as before, a link
carries `active` if and only if its href is `#` followed by `activeId`, and the
number of highlighted links is the number of links with that href (so exactly one
is highlighted exactly when exactly one link has that href). -/
theorem updateActiveLink_highlights_matching (activeId : String) (st : PageState) :
    (updateActiveLink activeId st).navLinks.map NavLink.href
        = st.navLinks.map NavLink.href
    ∧ (∀ l ∈ (updateActiveLink activeId st).navLinks,
        (l.isActive = true ↔ l.href = some ("#" ++ activeId)))
    ∧ activeCount (updateActiveLink activeId st)
        = st.navLinks.countP (fun l => decide (l.href = some ("#" ++ activeId))) := by
  refine ⟨updateActiveLink_hrefs activeId st, updateActiveLink_isActive activeId st, ?_⟩
  unfold activeCount updateActiveLink
  simp only
  rw [List.countP_map]
  apply List.countP_congr
  intro l _
  simp only [Function.comp_apply, decide_eq_true_eq]
  exact updateLink_isActive activeId l

/-- C8 (amended) at a page whose `home` link was highlighted: after
`updateActiveLink("about")` the `about` link is the one highlighted link. -/
theorem updateActiveLink_highlights_matching_witness :
    (⟨some "#about", ["active"]⟩ : NavLink) ∈ (updateActiveLink "about"
        ⟨"home", [⟨some "#home", ["active"]⟩, ⟨some "#about", []⟩], []⟩).navLinks
    ∧ ((⟨some "#about", ["active"]⟩ : NavLink).isActive = true
        ↔ (⟨some "#about", ["active"]⟩ : NavLink).href = some ("#" ++ "about"))
    ∧ activeCount (updateActiveLink "about"
        ⟨"home", [⟨some "#home", ["active"]⟩, ⟨some "#about", []⟩], []⟩)
      = List.countP (fun l => decide (l.href = some ("#" ++ "about")))
          [(⟨some "#home", ["active"]⟩ : NavLink), ⟨some "#about", []⟩] :=
  ⟨by decide,
   (updateActiveLink_highlights_matching "about"
     ⟨"home", [⟨some "#home", ["active"]⟩, ⟨some "#about", []⟩], []⟩).2.1
     ⟨some "#about", ["active"]⟩ (by decide),
   (updateActiveLink_highlights_matching "about"
     ⟨"home", [⟨some "#home", ["active"]⟩, ⟨some "#about", []⟩], []⟩).2.2⟩

/-- C10: if a link carries `active` exactly when its href is `#` followed by the
stored `activeSection`, the same holds, for the new `activeSection`, after
`handleScrollNavigation` and after `scrollToSection`. -/
theorem inSync_preserved (st : PageState) (h : InSync st) :
    (∀ (sections : List Section) (scrollY : Int),
        InSync (handleScrollNavigation sections scrollY st))
    ∧ (∀ (doc : List DocElement) (sectionId : String),
        InSync (scrollToSection doc sectionId st)) :=
  ⟨fun sections scrollY => handleScrollNavigation_inSync sections scrollY st h,
   fun doc sectionId => scrollToSection_inSync doc sectionId st h⟩

/-- C10 at a page whose `home` link is highlighted: a scroll that resolves to
`about`, a jump to `about` and a jump to a missing id. -/
theorem inSync_preserved_witness :
    InSync ⟨"home", [⟨some "#home", ["active"]⟩, ⟨some "#about", []⟩], []⟩
    ∧ InSync (handleScrollNavigation [⟨"home", 0, 600⟩, ⟨"about", 600, 600⟩] 550
        ⟨"home", [⟨some "#home", ["active"]⟩, ⟨some "#about", []⟩], []⟩)
    ∧ InSync (scrollToSection [⟨"home", 0⟩, ⟨"about", 600⟩] "about"
        ⟨"home", [⟨some "#home", ["active"]⟩, ⟨some "#about", []⟩], []⟩)
    ∧ InSync (scrollToSection [⟨"home", 0⟩, ⟨"about", 600⟩] "projects"
        ⟨"home", [⟨some "#home", ["active"]⟩, ⟨some "#about", []⟩], []⟩) :=
  ⟨by unfold InSync; decide,
   (inSync_preserved ⟨"home", [⟨some "#home", ["active"]⟩, ⟨some "#about", []⟩], []⟩
     (by unfold InSync; decide)).1 [⟨"home", 0, 600⟩, ⟨"about", 600, 600⟩] 550,
   (inSync_preserved ⟨"home", [⟨some "#home", ["active"]⟩, ⟨some "#about", []⟩], []⟩
     (by unfold InSync; decide)).2 [⟨"home", 0⟩, ⟨"about", 600⟩] "about",
   (inSync_preserved ⟨"home", [⟨some "#home", ["active"]⟩, ⟨some "#about", []⟩], []⟩
     (by unfold InSync; decide)).2 [⟨"home", 0⟩, ⟨"about", 600⟩] "projects"⟩

/-! ## Claim on page load -/

/-- C6, as stated, fails: with no URL hash, a `home` section of height 50 above an
`about` section and `scrollY = 0`, the initial `handleScrollNavigation` of
`initializePortfolio` stores `about`. -/
theorem domContentLoaded_not_home_counterexample :
    (domContentLoaded [⟨"home", 0, 50⟩, ⟨"about", 50, 600⟩] 0 ⟨800, fun _ => 0⟩ ""
        (initialPage [⟨some "#home", []⟩, ⟨some "#about", []⟩] [])).nav.activeSection
      = "about"
    ∧ (domContentLoaded [⟨"home", 0, 50⟩, ⟨"about", 50, 600⟩] 0 ⟨800, fun _ => 0⟩ ""
        (initialPage [⟨some "#home", []⟩, ⟨some "#about", []⟩] [])).nav.activeSection
      ≠ "home" := by
  decide

/-- C6 (amended): when the page loads with no URL hash, `onPageLoad` schedules no
`scrollToSection` and the stored `activeSection` afterwards is the one resolved
by the initial `handleScrollNavigation`: `home` when no section's range holds
`scrollY + 100` or the last such section has an empty id, and the id of the last
such section otherwise. -/
theorem domContentLoaded_no_hash (sections : List Section) (scrollY : Int)
    (g : Geometry) (navLinks : List NavLink) (elements : List FadeElement) :
    (domContentLoaded sections scrollY g "" (initialPage navLinks elements)).scheduled = []
    ∧ (domContentLoaded sections scrollY g "" (initialPage navLinks elements)).nav.activeSection
      = (match (matching sections scrollY).getLast? with
         | none => "home"
         | some s => if s.id = "" then "home" else s.id) := by
  constructor
  · rfl
  · show (handleScrollNavigation sections scrollY
        (initialPage navLinks elements).nav).activeSection = _
    cases hm : (matching sections scrollY).getLast? with
    | none =>
      have hf : sections.filter (inRange (scrollY + 100)) = [] := by
        unfold matching at hm
        exact List.getLast?_eq_none_iff.mp hm
      have hc : resolveCurrent sections (scrollY + 100) = "" := by
        rw [resolveCurrent_eq, hf]
        rfl
      unfold handleScrollNavigation
      simp only [hc]
      rw [if_neg (by simp)]
      rfl
    | some s =>
      have hc : resolveCurrent sections (scrollY + 100) = s.id := by
        rw [resolveCurrent_eq]
        unfold matching at hm
        rw [hm]
      unfold handleScrollNavigation
      simp only [hc]
      by_cases he : s.id = ""
      · rw [if_neg (by simp [he]), if_pos he]
        rfl
      · rw [if_neg he]
        by_cases heq : s.id = (initialPage navLinks elements).nav.activeSection
        · rw [if_neg (by simp [heq])]
          exact heq.symm
        · rw [if_pos ⟨he, heq⟩]
          rfl

/-! ## Reveal animation lemmas and claims -/

theorem animateElement_node (g : Geometry) (e : FadeElement) :
    (animateElement g e).node = e.node := by
  unfold animateElement
  split
  · simp only
    split <;> rfl
  · rfl

theorem animateElement_isVisible (g : Geometry) (e : FadeElement) :
    (animateElement g e).isVisible = true
      ↔ e.isVisible = true ∨ (e.isFadeIn = true ∧ g.top e.node < g.innerHeight - 150) := by
  unfold animateElement
  split
  · rename_i hf
    simp only
    split
    · rename_i ht
      simp [FadeElement.isVisible, mem_classListAdd, hf, ht]
    · rename_i ht
      simp [hf, ht]
  · rename_i hf
    simp [hf]

theorem animateElement_idem (g : Geometry) (e : FadeElement) :
    animateElement g (animateElement g e) = animateElement g e := by
  by_cases hf : e.isFadeIn = true
  · by_cases ht : g.top e.node < g.innerHeight - 150
    · have h1 : animateElement g e
          = { e with classList := classListAdd e.classList "visible" } := by
        simp [animateElement, hf, ht]
      have hmem : "visible" ∈ classListAdd e.classList "visible" := by
        rw [mem_classListAdd]; exact Or.inr rfl
      have hf2 : "fade-in" ∈ classListAdd e.classList "visible" := by
        rw [mem_classListAdd]
        exact Or.inl (by simpa [FadeElement.isFadeIn] using hf)
      rw [h1]
      simp [animateElement, FadeElement.isFadeIn, hf2, ht, classListAdd_of_mem _ _ hmem]
    · have h1 : animateElement g e = e := by simp [animateElement, hf, ht]
      rw [h1, h1]
  · have h1 : animateElement g e = e := by simp [animateElement, hf]
    rw [h1, h1]

theorem animateOnScroll_getElem? (g : Geometry) (els : List FadeElement) (i : Nat) :
    (animateOnScroll g els)[i]? = (els[i]?).map (animateElement g) := by
  unfold animateOnScroll
  rw [List.getElem?_map]

/-- C5: an element that carries `visible` keeps it through any sequence of
`animateOnScroll` calls, whatever the geometry of each call: the element at the
same position is the same node and is still visible. -/
theorem animateOnScroll_visible_stays (gs : List Geometry) (els : List FadeElement)
    (i : Nat) (e : FadeElement) (h : els[i]? = some e) (hv : e.isVisible = true) :
    ∃ e2, (animateAll gs els)[i]? = some e2 ∧ e2.node = e.node ∧ e2.isVisible = true := by
  induction gs generalizing els e with
  | nil => exact ⟨e, h, rfl, hv⟩
  | cons g rest ih =>
    have h1 : (animateOnScroll g els)[i]? = some (animateElement g e) := by
      rw [animateOnScroll_getElem?, h]
      rfl
    have hv1 : (animateElement g e).isVisible = true :=
      (animateElement_isVisible g e).2 (Or.inl hv)
    obtain ⟨e2, he2, hn, hv2⟩ := ih (animateOnScroll g els) (animateElement g e) h1 hv1
    exact ⟨e2, he2, by rw [hn, animateElement_node], hv2⟩

/-- C5 at two elements and two geometries, the second of which puts every element
far below the viewport. -/
theorem animateOnScroll_visible_stays_witness :
    ([(⟨0, ["fade-in"], true⟩ : FadeElement), ⟨1, ["fade-in", "visible"], true⟩])[1]?
        = some ⟨1, ["fade-in", "visible"], true⟩
    ∧ (⟨1, ["fade-in", "visible"], true⟩ : FadeElement).isVisible = true
    ∧ ∃ e2, (animateAll [⟨800, fun _ => 100⟩, ⟨800, fun _ => 5000⟩]
          [⟨0, ["fade-in"], true⟩, ⟨1, ["fade-in", "visible"], true⟩])[1]? = some e2
        ∧ e2.node = (⟨1, ["fade-in", "visible"], true⟩ : FadeElement).node
        ∧ e2.isVisible = true :=
  ⟨by decide, by decide,
   animateOnScroll_visible_stays [⟨800, fun _ => 100⟩, ⟨800, fun _ => 5000⟩]
     [⟨0, ["fade-in"], true⟩, ⟨1, ["fade-in", "visible"], true⟩] 1
     ⟨1, ["fade-in", "visible"], true⟩ (by decide) (by decide)⟩

/-- C9: after `animateOnScroll` a `.fade-in` element carries `visible` if and only if
it carried it before or its top is strictly less than `innerHeight - 150`; and
running `animateOnScroll` twice under one geometry gives the state of one run. -/
theorem animateOnScroll_visible_iff (g : Geometry) (els : List FadeElement) :
    (∀ (i : Nat) (e : FadeElement), els[i]? = some e → e.isFadeIn = true →
      ∃ e2, (animateOnScroll g els)[i]? = some e2 ∧ e2.node = e.node
        ∧ (e2.isVisible = true
            ↔ (e.isVisible = true ∨ g.top e.node < g.innerHeight - 150)))
    ∧ animateOnScroll g (animateOnScroll g els) = animateOnScroll g els := by
  constructor
  · intro i e h hf
    refine ⟨animateElement g e, ?_, animateElement_node g e, ?_⟩
    · rw [animateOnScroll_getElem?, h]
      rfl
    · rw [animateElement_isVisible]
      simp [hf]
  · unfold animateOnScroll
    rw [List.map_map]
    apply List.map_congr_left
    intro e _
    exact animateElement_idem g e

/-- C9 at a hidden `.fade-in` element whose top is above the threshold. -/
theorem animateOnScroll_visible_iff_witness :
    ([(⟨0, ["fade-in"], true⟩ : FadeElement), ⟨1, ["fade-in"], true⟩])[0]?
        = some ⟨0, ["fade-in"], true⟩
    ∧ (⟨0, ["fade-in"], true⟩ : FadeElement).isFadeIn = true
    ∧ ∃ e2, (animateOnScroll ⟨800, fun n => if n = 0 then 100 else 700⟩
          [⟨0, ["fade-in"], true⟩, ⟨1, ["fade-in"], true⟩])[0]? = some e2
        ∧ e2.node = (⟨0, ["fade-in"], true⟩ : FadeElement).node
        ∧ (e2.isVisible = true
            ↔ ((⟨0, ["fade-in"], true⟩ : FadeElement).isVisible = true
              ∨ (⟨800, fun n => if n = 0 then 100 else 700⟩ : Geometry).top
                  (⟨0, ["fade-in"], true⟩ : FadeElement).node
                < (⟨800, fun n => if n = 0 then 100 else 700⟩ : Geometry).innerHeight - 150)) :=
  ⟨by decide, by decide,
   (animateOnScroll_visible_iff ⟨800, fun n => if n = 0 then 100 else 700⟩
     [⟨0, ["fade-in"], true⟩, ⟨1, ["fade-in"], true⟩]).1 0
     ⟨0, ["fade-in"], true⟩ (by decide) (by decide)⟩

/-! ## Throttle lemmas and claim -/

/-- Exactly one timer is pending: the one whose handle `timeout` holds, set by a
call at time `t` with arguments `a`; `func` has not run. -/
def Armed {α : Type} (wait : Nat) (s : ThrottleState α) (t : Nat) (a : α) : Prop :=
  ∃ id, s.pending = [⟨id, t + wait, a⟩] ∧ s.timeout = some id ∧ s.invoked = []

theorem nextDue_mem {α : Type} (limit : Nat) (ts : List (Timer α)) (t : Timer α)
    (h : nextDue limit ts = some t) : t ∈ ts := by
  induction ts generalizing t with
  | nil => simp [nextDue] at h
  | cons a rest ih =>
    unfold nextDue at h
    cases hr : nextDue limit rest with
    | none =>
      rw [hr] at h
      simp only at h
      split at h
      · cases h; exact List.mem_cons_self _ _
      · cases h
    | some u =>
      rw [hr] at h
      simp only at h
      split at h
      · cases h; exact List.mem_cons_self _ _
      · cases h; exact List.mem_cons_of_mem _ (ih _ hr)

theorem nextDue_nil_of_length {α : Type} (limit : Nat) (ts : List (Timer α))
    (h : ts.length ≤ 0) : nextDue limit ts = none := by
  cases ts with
  | nil => rfl
  | cons a rest => simp at h

/-- The rounds of `runTimers` are enough: no timer due by `limit` is left pending. -/
theorem runTimersAux_done {α : Type} (limit n : Nat) (s : ThrottleState α)
    (h : s.pending.length ≤ n) :
    nextDue limit (runTimersAux limit n s).pending = none := by
  induction n generalizing s with
  | zero => exact nextDue_nil_of_length limit _ h
  | succ n ih =>
    unfold runTimersAux
    cases hd : nextDue limit s.pending with
    | none => simpa using hd
    | some t =>
      simp only
      apply ih
      have hmem := nextDue_mem limit s.pending t hd
      have h1 : (s.pending.filter (fun u => decide (u.id ≠ t.id))).length
          < s.pending.length := by
        rw [List.length_filter_lt_length_iff_exists]
        exact ⟨t, hmem, by simp⟩
      have h2 : (later t { s with
            pending := List.filter (fun u => decide (u.id ≠ t.id)) s.pending }).pending.length
          ≤ (s.pending.filter (fun u => decide (u.id ≠ t.id))).length := by
        unfold later clearTimeout
        exact List.length_filter_le _ _
      omega

theorem runTimers_done {α : Type} (limit : Nat) (s : ThrottleState α) :
    nextDue limit (runTimers limit s).pending = none :=
  runTimersAux_done limit s.pending.length s (Nat.le_refl _)

theorem runTimers_armed_before {α : Type} (wait limit : Nat) (s : ThrottleState α)
    (t : Nat) (a : α) (h : Armed wait s t a) (hlt : limit < t + wait) :
    runTimers limit s = s := by
  obtain ⟨id, hp, _, _⟩ := h
  have hn : ¬ (t + wait ≤ limit) := by omega
  simp [runTimers, runTimersAux, hp, nextDue, hn]

theorem runTimers_armed_after {α : Type} (wait limit : Nat) (s : ThrottleState α)
    (t : Nat) (a : α) (h : Armed wait s t a) (hle : t + wait ≤ limit) :
    (runTimers limit s).invoked = [(t + wait, a)] ∧ (runTimers limit s).pending = [] := by
  obtain ⟨id, hp, _, hi⟩ := h
  simp [runTimers, runTimersAux, hp, nextDue, hle, later, clearTimeout, hi]

theorem executedFunction_first {α : Type} (wait now : Nat) (a : α) (s : ThrottleState α)
    (hp : s.pending = []) (hi : s.invoked = []) :
    Armed wait (executedFunction wait now a s) now a := by
  refine ⟨s.nextId, ?_, ?_, ?_⟩ <;>
    simp [executedFunction, runTimers, runTimersAux, hp, hi, clearTimeout]

theorem executedFunction_next {α : Type} (wait now : Nat) (a2 : α) (s : ThrottleState α)
    (t : Nat) (a : α) (h : Armed wait s t a) (hlt : now < t + wait) :
    Armed wait (executedFunction wait now a2 s) now a2 := by
  have hs := runTimers_armed_before wait now s t a h hlt
  obtain ⟨id, hp, ht, hi⟩ := h
  refine ⟨s.nextId, ?_, ?_, ?_⟩ <;>
    simp [executedFunction, hs, hp, ht, hi, clearTimeout]

theorem callAll_armed {α : Type} (wait : Nat) (rest : List (Nat × α))
    (s : ThrottleState α) (t : Nat) (a : α) (h : Armed wait s t a)
    (hc : closeCalls wait ((t, a) :: rest) = true) :
    Armed wait (callAll wait rest s)
      (((t, a) :: rest).getLast (List.cons_ne_nil _ _)).1
      (((t, a) :: rest).getLast (List.cons_ne_nil _ _)).2 := by
  induction rest generalizing s t a with
  | nil => simpa [callAll] using h
  | cons b more ih =>
    simp only [closeCalls, Bool.and_eq_true, decide_eq_true_eq] at hc
    obtain ⟨⟨_, hlt⟩, hmore⟩ := hc
    have hb := executedFunction_next wait b.1 b.2 s t a h hlt
    have := ih (executedFunction wait b.1 b.2 s) b.1 b.2 hb hmore
    rw [List.getLast_cons_cons]
    exact this

/-- C3: when the function returned by `throttle(func, wait)` is called one or more
times, each call less than `wait` after the previous one, and time then passes up
to `horizon` with no further call, `func` has run exactly once if `horizon` has
reached `wait` after the last call, at that very time and with the arguments of
the last call, and has not run at all before then. -/
theorem throttle_burst_invokes_once {α : Type} (wait firstId : Nat)
    (calls : List (Nat × α)) (hne : calls ≠ [])
    (hclose : closeCalls wait calls = true) (horizon : Nat) :
    (runTimers horizon (callAll wait calls (throttle α firstId))).invoked
      = if (calls.getLast hne).1 + wait ≤ horizon then
          [((calls.getLast hne).1 + wait, (calls.getLast hne).2)]
        else [] := by
  cases calls with
  | nil => exact absurd rfl hne
  | cons c rest =>
    obtain ⟨t, a⟩ := c
    have h0 : Armed wait (executedFunction wait t a (throttle α firstId)) t a :=
      executedFunction_first wait t a _ rfl rfl
    have h1 := callAll_armed wait rest _ t a h0 hclose
    have hrun : callAll wait ((t, a) :: rest) (throttle α firstId)
        = callAll wait rest (executedFunction wait t a (throttle α firstId)) := rfl
    rw [hrun]
    split
    · rename_i hle
      exact (runTimers_armed_after wait horizon _ _ _ h1 hle).1
    · rename_i hle
      rw [runTimers_armed_before wait horizon _ _ _ h1 (by omega)]
      exact h1.choose_spec.2.2

/-- C3 at three calls 10 and 15 ms apart with `wait = 16`: one run, at time 41, with
the arguments of the third call. -/
theorem throttle_burst_invokes_once_witness :
    [(0, "a"), (10, "b"), (25, "c")] ≠ ([] : List (Nat × String))
    ∧ closeCalls 16 [(0, "a"), (10, "b"), (25, "c")] = true
    ∧ (runTimers 1000 (callAll 16 [(0, "a"), (10, "b"), (25, "c")]
          (throttle String 0))).invoked = [(41, "c")] :=
  ⟨by decide, by decide,
   throttle_burst_invokes_once 16 0 [(0, "a"), (10, "b"), (25, "c")] (by decide)
     (by decide) 1000⟩

end Portfolio
